import Mathlib

/-!
Shallow embedding of the terraform-provider-aws resource handlers
(FSx waiters, DAX parameter group, EC2 transit gateway peering attachment,
EC2 carrier gateway, Route 53 Resolver rule data source, SES active receipt
rule set, Security Hub organization configuration, Service Catalog
constraint), together with a model of the generic lifecycle-polling and
bounded-retry helpers of the plugin SDK described in the design document.

Go conventions are mapped as follows: a Go pointer-to-string field becomes
an `Option String` (with `aws.StringValue` becoming `Option.getD ""`); a Go
call returning `(T, error)` becomes `Except AwsErr T`; `schema.ResourceData`
becomes an explicit `ResourceData` value threaded through each handler.
-/

set_option autoImplicit false

namespace TfAws

/-- Categorizable AWS API error: a code plus a human-readable message,
matching what the aws-sdk-go `awserr.Error` interface exposes and what
`tfawserr` inspects. -/
structure AwsErr where
  code : String
  message : String
deriving DecidableEq, Repr

/-- Decides whether the list begins with the given pattern (elementwise). -/
def listStarts {α : Type} [BEq α] : List α → List α → Bool
  | _, [] => true
  | [], _ :: _ => false
  | a :: as, b :: bs => a == b && listStarts as bs

/-- Decides whether the pattern occurs contiguously anywhere in the list. -/
def listHasRun {α : Type} [BEq α] : List α → List α → Bool
  | [], pat => listStarts ([] : List α) pat
  | a :: rest, pat => listStarts (a :: rest) pat || listHasRun rest pat

/-- Substring test on strings, the semantics of Go `strings.Contains`
(every string contains the empty string). -/
def strContains (s pat : String) : Bool :=
  listHasRun s.toList pat.toList

/-- Embedding of `tfawserr.ErrMessageContains(err, code, msg)`: the error is
an AWS error whose code equals `code` and whose message contains `msg`. -/
def ErrMessageContains (e : Option AwsErr) (code msg : String) : Bool :=
  match e with
  | none => false
  | some err => err.code == code && strContains err.message msg

/-- Embedding of `tfawserr.ErrCodeEquals(err, code)`. -/
def ErrCodeEquals (e : Option AwsErr) (code : String) : Bool :=
  match e with
  | none => false
  | some err => err.code == code

/-- Projection of an `Except` result onto the error that Go's second return
value would carry. -/
def exErr {α : Type} : Except AwsErr α → Option AwsErr
  | .ok _ => none
  | .error e => some e

/-- Scalar attribute values stored in a `schema.ResourceData`. -/
inductive AttrVal where
  | str (s : String)
  | boolean (b : Bool)
  | params (ps : List (String × String))
  | strMap (m : List (String × String))
deriving DecidableEq, Repr

/-- Association-list update used to model `d.Set`: replaces the first
binding of the key, appends when absent. -/
def setAttr : List (String × AttrVal) → String → AttrVal → List (String × AttrVal)
  | [], k, v => [(k, v)]
  | (k', v') :: rest, k, v =>
    if k' == k then (k, v) :: rest else (k', v') :: setAttr rest k v

/-- Association-list lookup used to model `d.Get`. -/
def lookupAttr : List (String × AttrVal) → String → Option AttrVal
  | [], _ => none
  | (k', v') :: rest, k => if k' == k then some v' else lookupAttr rest k

/-- State of one resource instance as the plugin SDK tracks it: the
identifier (`d.Id()`), the attribute map, and the set of keys the current
plan marks as changed (what `d.HasChange` consults). -/
structure ResourceData where
  ident : String
  attrs : List (String × AttrVal)
  changedKeys : List String
deriving DecidableEq, Repr

/-- Embedding of `d.SetId`. -/
def ResourceData.setId (d : ResourceData) (i : String) : ResourceData :=
  { d with ident := i }

/-- Embedding of `d.Set`. -/
def ResourceData.set (d : ResourceData) (k : String) (v : AttrVal) : ResourceData :=
  { d with attrs := setAttr d.attrs k v }

/-- Embedding of `d.Get(k).(string)`: the zero value is the empty string. -/
def ResourceData.getStr (d : ResourceData) (k : String) : String :=
  match lookupAttr d.attrs k with
  | some (.str s) => s
  | _ => ""

/-- Embedding of `d.Get(k).(bool)`. -/
def ResourceData.getBool (d : ResourceData) (k : String) : Bool :=
  match lookupAttr d.attrs k with
  | some (.boolean b) => b
  | _ => false

/-- Embedding of `d.Get(k).(*schema.Set).List()` for the DAX parameter set. -/
def ResourceData.getParams (d : ResourceData) (k : String) : List (String × String) :=
  match lookupAttr d.attrs k with
  | some (.params ps) => ps
  | _ => []

/-- Embedding of `d.GetOk` on a string attribute: set and non-zero. -/
def ResourceData.getOkStr (d : ResourceData) (k : String) : Option String :=
  match lookupAttr d.attrs k with
  | some (.str s) => if s == "" then none else some s
  | _ => none

/-- Embedding of `d.HasChange`. -/
def ResourceData.hasChange (d : ResourceData) (k : String) : Bool :=
  d.changedKeys.contains k

/-- Value of one invocation of a `resource.StateRefreshFunc`, the Go triple
`(interface{}, string, error)`: either an observed object (possibly absent)
with its status string, or an error. -/
inductive RefreshResult (α : Type) where
  | ok (obj : Option α) (state : String)
  | err (e : AwsErr)
deriving DecidableEq, Repr

/-- Terminal outcomes of the Lifecycle Poller. The timeout outcome carries
the optional enriched failure detail (`resource.TimeoutError.LastError`). -/
inductive WaitError where
  | timeout (lastError : Option String)
  | unexpectedState (state : String)
  | notFoundFailure
  | apiError (e : AwsErr)
deriving DecidableEq, Repr

/-- Parameters of a polling loop, mirroring `resource.StateChangeConf`:
pending states, target states, the refresh function (indexed by tick), and
the timeout expressed as the maximal number of polls. -/
structure StateChangeConf (α : Type) where
  pending : List String
  target : List String
  refresh : Nat → RefreshResult α
  timeout : Nat

/-- Modelled from the spec: the loop body of the Lifecycle Poller
(`resource.StateChangeConf.WaitForState` of the terraform-plugin-sdk, whose
source is not part of this repository). On each tick it invokes the
refresh function; an error aborts and is propagated; an absent resource is
a valid terminal success only when the target set is empty (absence is the
desired state) and otherwise surfaces as a failure; a status in the target
set is success; a status in the pending set continues polling; any other
status is a terminal unexpected-state failure; exhausting the timeout
yields a generic timeout failure carrying the last observed object. -/
def waitForStateGo {α : Type} (pending target : List String)
    (refresh : Nat → RefreshResult α) :
    Nat → Nat → Option α → Option α × Option WaitError
  | 0, _, last => (last, some (.timeout none))
  | fuel + 1, i, last =>
    match refresh i with
    | .err e => (last, some (.apiError e))
    | .ok none _ =>
      if target.isEmpty then (none, none)
      else (last, some .notFoundFailure)
    | .ok (some obj) state =>
      if target.contains state then (some obj, none)
      else if pending.contains state then
        waitForStateGo pending target refresh fuel (i + 1) (some obj)
      else (some obj, some (.unexpectedState state))

/-- Modelled from the spec: entry point of the Lifecycle Poller, returning
the last observed object (Go's `outputRaw`) and the terminal error. -/
def WaitForState {α : Type} (conf : StateChangeConf α) : Option α × Option WaitError :=
  waitForStateGo conf.pending conf.target conf.refresh conf.timeout 0 none

/-- Modelled from the spec: `tfresource.SetLastError` (internal package, not
in the source tree): when the error is a timeout that carries no richer
cause yet, attach the given failure detail; otherwise leave the error
unchanged. -/
def SetLastError : Option WaitError → String → Option WaitError
  | some (.timeout none), msg => some (.timeout (some msg))
  | e, _ => e

/-! FSx file system waiters, embedded from the `fsx` source file. -/

/-- Constant `fsx.FileSystemLifecycleAvailable` of the AWS SDK. -/
def FileSystemLifecycleAvailable : String := "AVAILABLE"

/-- Constant `fsx.FileSystemLifecycleCreating` of the AWS SDK. -/
def FileSystemLifecycleCreating : String := "CREATING"

/-- Constant `fsx.FileSystemLifecycleDeleting` of the AWS SDK. -/
def FileSystemLifecycleDeleting : String := "DELETING"

/-- Constant `fsx.FileSystemLifecycleUpdating` of the AWS SDK. -/
def FileSystemLifecycleUpdating : String := "UPDATING"

/-- Constant `fsx.StatusCompleted` of the AWS SDK. -/
def StatusCompleted : String := "COMPLETED"

/-- Constant `fsx.StatusInProgress` of the AWS SDK. -/
def StatusInProgress : String := "IN_PROGRESS"

/-- Constant `fsx.StatusPending` of the AWS SDK. -/
def StatusPending : String := "PENDING"

/-- Constant `fsx.StatusUpdatedOptimizing` of the AWS SDK. -/
def StatusUpdatedOptimizing : String := "UPDATED_OPTIMIZING"

/-- Constant `fsx.ErrCodeFileSystemNotFound` of the AWS SDK. -/
def ErrCodeFileSystemNotFound : String := "FileSystemNotFound"

/-- Field subset of `fsx.AdministrativeAction` used by the waiters. -/
structure AdministrativeAction where
  administrativeActionType : Option String
  status : Option String
deriving DecidableEq, Repr

/-- Field subset of `fsx.FileSystemFailureDetails`. -/
structure FailureDetails where
  message : Option String
deriving DecidableEq, Repr

/-- Field subset of `fsx.FileSystem` used by the waiters. The list of
administrative actions keeps Go's possibly-nil entries as options. -/
structure FileSystem where
  fileSystemId : Option String
  lifecycle : Option String
  administrativeActions : List (Option AdministrativeAction)
  failureDetails : Option FailureDetails
deriving DecidableEq, Repr

/-- FSx connection: each successive `DescribeFileSystemsPages` call (indexed
by call count) either fails or yields the pages of file systems. -/
structure FsxConn where
  describePages : Nat → Except AwsErr (List (List FileSystem))

/-- Page scan of `describeFsxFileSystem`: within each page, the first file
system whose identifier equals `id` stops the iteration. -/
def findFileSystemInPages (id : String) : List (List FileSystem) → Option FileSystem
  | [] => none
  | page :: rest =>
    match page.find? (fun fs => fs.fileSystemId.getD "" == id) with
    | some fs => some fs
    | none => findFileSystemInPages id rest

/-- Embedding of `describeFsxFileSystem` at the given call index: pages are
fetched from the connection and scanned for the identifier. -/
def describeFsxFileSystem (conn : FsxConn) (id : String) (call : Nat) :
    Except AwsErr (Option FileSystem) :=
  (conn.describePages call).map (findFileSystemInPages id)

/-- Embedding of `refreshFsxFileSystemLifecycle`: a `FileSystemNotFound`
error or an absent file system refreshes to `(nil, "", nil)`; any other
error is propagated; otherwise the status is the lifecycle field. -/
def refreshFsxFileSystemLifecycle (conn : FsxConn) (id : String) (call : Nat) :
    RefreshResult FileSystem :=
  match describeFsxFileSystem conn id call with
  | .error e =>
    if ErrMessageContains (some e) ErrCodeFileSystemNotFound "" then .ok none ""
    else .err e
  | .ok none => .ok none ""
  | .ok (some fs) => .ok (some fs) (fs.lifecycle.getD "")

/-- Loop of `refreshFsxFileSystemAdministrativeActionsStatusFileSystemUpdate`:
skip nil entries and return the first action of the requested type. -/
def findAdminAction (action : String) :
    List (Option AdministrativeAction) → Option AdministrativeAction
  | [] => none
  | none :: rest => findAdminAction action rest
  | some aa :: rest =>
    if aa.administrativeActionType.getD "" == action then some aa
    else findAdminAction action rest

/-- Embedding of
`refreshFsxFileSystemAdministrativeActionsStatusFileSystemUpdate`: like the
lifecycle refresh, but the status is that of the matching administrative
action, and `StatusCompleted` when no action of the requested type exists. -/
def refreshFsxFileSystemAdministrativeActionsStatusFileSystemUpdate
    (conn : FsxConn) (id action : String) (call : Nat) : RefreshResult FileSystem :=
  match describeFsxFileSystem conn id call with
  | .error e =>
    if ErrMessageContains (some e) ErrCodeFileSystemNotFound "" then .ok none ""
    else .err e
  | .ok none => .ok none ""
  | .ok (some fs) =>
    match findAdminAction action fs.administrativeActions with
    | some aa => .ok (some fs) (aa.status.getD "")
    | none => .ok (some fs) StatusCompleted

/-- Embedding of `waitForFsxFileSystemCreation`: poll the lifecycle from
`CREATING` to `AVAILABLE`; when the returned raw output is a file system
with failure details, attach their message to the error. -/
def waitForFsxFileSystemCreation (conn : FsxConn) (id : String) (timeout : Nat) :
    Option WaitError :=
  let r := WaitForState
    { pending := [FileSystemLifecycleCreating]
      target := [FileSystemLifecycleAvailable]
      refresh := refreshFsxFileSystemLifecycle conn id
      timeout := timeout }
  match r.1 with
  | some output =>
    match output.failureDetails with
    | some fd => SetLastError r.2 (fd.message.getD "")
    | none => r.2
  | none => r.2

/-- Embedding of `waitForFsxFileSystemDeletion`: pending states `AVAILABLE`
and `DELETING`, empty target set (awaiting absence), same failure-detail
enrichment as creation. -/
def waitForFsxFileSystemDeletion (conn : FsxConn) (id : String) (timeout : Nat) :
    Option WaitError :=
  let r := WaitForState
    { pending := [FileSystemLifecycleAvailable, FileSystemLifecycleDeleting]
      target := []
      refresh := refreshFsxFileSystemLifecycle conn id
      timeout := timeout }
  match r.1 with
  | some output =>
    match output.failureDetails with
    | some fd => SetLastError r.2 (fd.message.getD "")
    | none => r.2
  | none => r.2

/-- Embedding of `waitForFsxFileSystemUpdate`. -/
def waitForFsxFileSystemUpdate (conn : FsxConn) (id : String) (timeout : Nat) :
    Option WaitError :=
  (WaitForState
    { pending := [FileSystemLifecycleUpdating]
      target := [FileSystemLifecycleAvailable]
      refresh := refreshFsxFileSystemLifecycle conn id
      timeout := timeout }).2

/-- Embedding of
`waitForFsxFileSystemUpdateAdministrativeActionsStatusFileSystemUpdate`. -/
def waitForFsxFileSystemUpdateAdministrativeActionsStatusFileSystemUpdate
    (conn : FsxConn) (id action : String) (timeout : Nat) : Option WaitError :=
  (WaitForState
    { pending := [StatusInProgress, StatusPending]
      target := [StatusCompleted, StatusUpdatedOptimizing]
      refresh := refreshFsxFileSystemAdministrativeActionsStatusFileSystemUpdate conn id action
      timeout := timeout }).2

/-! Errors returned by the CRUD handlers: either a raw AWS error passed
through, a contextualized wrapper (`fmt.Errorf` with `%w`/`%s`), a plain
message, or a wrapped poller outcome. -/

/-- Error produced by a repository-internal waiter: either the
distinguished not-found error recognized by `tfresource.NotFound` (a
`resource.NotFoundError` value) or an ordinary error. -/
inductive ScWaitErr where
  | notFound
  | other (e : AwsErr)
deriving DecidableEq, Repr

/-- Embedding of `tfresource.NotFound` on waiter errors. -/
def tfresourceNotFound : ScWaitErr → Bool
  | .notFound => true
  | .other _ => false

/-- Error value returned by a resource handler to the orchestration engine. -/
inductive OpError where
  | aws (e : AwsErr)
  | wrapped (context : String) (e : AwsErr)
  | msg (s : String)
  | wait (context : String) (w : WaitError)
  | scWait (context : String) (w : ScWaitErr)
deriving DecidableEq, Repr

/-! DAX parameter group, embedded from the `dax` source file. -/

/-- Constant `dax.ErrCodeParameterGroupNotFoundFault` of the AWS SDK. -/
def ErrCodeParameterGroupNotFoundFault : String := "ParameterGroupNotFoundFault"

/-- Field subset of `dax.ParameterGroup`. -/
structure ParameterGroup where
  parameterGroupName : Option String
  description : Option String
deriving DecidableEq, Repr

/-- Field subset of `dax.Parameter`. -/
structure Parameter where
  parameterName : Option String
  parameterValue : Option String
deriving DecidableEq, Repr

/-- Request body of `dax.CreateParameterGroupInput`. -/
structure CreateParameterGroupInput where
  parameterGroupName : Option String
  description : Option String
deriving DecidableEq, Repr

/-- Request body of `dax.UpdateParameterGroupInput`; the name/value list is
absent when the handler does not populate it. -/
structure UpdateParameterGroupInput where
  parameterGroupName : Option String
  parameterNameValues : Option (List (String × String))
deriving DecidableEq, Repr

/-- DAX API connection. -/
structure DaxConn where
  describeParameterGroups : String → Except AwsErr (List ParameterGroup)
  describeParameters : String → Except AwsErr (List Parameter)
  createParameterGroup : CreateParameterGroupInput → Option AwsErr
  updateParameterGroup : UpdateParameterGroupInput → Option AwsErr
  deleteParameterGroup : String → Option AwsErr

/-- Modelled from the spec: `flattenParameterGroupParameters` (defined
outside the provided source files): per the reconcilability invariant each
remote parameter becomes one name/value entry of the configuration set,
with nil pointers flattened to empty strings. -/
def flattenParameterGroupParameters (ps : List Parameter) : List (String × String) :=
  ps.map (fun p => (p.parameterName.getD "", p.parameterValue.getD ""))

/-- Modelled from the spec: `expandParameterGroupParameterNameValue` (defined
outside the provided source files): per the reconcilability invariant each
configured name/value entry becomes one remote parameter name/value pair. -/
def expandParameterGroupParameterNameValue (ps : List (String × String)) :
    List (String × String) :=
  ps

/-- Embedding of `resourceAwsDaxParameterGroupRead`: a not-found error or an
empty describe result clears the identifier and succeeds; otherwise the
name, the description (with the sentinel one-space default normalized to
the empty string) and the flattened parameters are written back. -/
def resourceAwsDaxParameterGroupRead (conn : DaxConn) (d : ResourceData) :
    ResourceData × Option OpError :=
  match conn.describeParameterGroups d.ident with
  | .error e =>
    if ErrMessageContains (some e) ErrCodeParameterGroupNotFoundFault "" then
      (d.setId "", none)
    else (d, some (.aws e))
  | .ok [] => (d.setId "", none)
  | .ok (pg :: _) =>
    match conn.describeParameters d.ident with
    | .error e =>
      if ErrMessageContains (some e) ErrCodeParameterGroupNotFoundFault "" then
        (d.setId "", none)
      else (d, some (.aws e))
    | .ok ps =>
      let d := d.set "name" (.str (pg.parameterGroupName.getD ""))
      let desc := pg.description
      let desc := if desc == some " " then some "" else desc
      let d := d.set "description" (.str (desc.getD ""))
      let d := d.set "parameters" (.params (flattenParameterGroupParameters ps))
      (d, none)

/-- Embedding of `resourceAwsDaxParameterGroupUpdate`: sends the expanded
parameter set when it changed, then re-reads. -/
def resourceAwsDaxParameterGroupUpdate (conn : DaxConn) (d : ResourceData) :
    ResourceData × Option OpError :=
  let input : UpdateParameterGroupInput :=
    { parameterGroupName := some d.ident
      parameterNameValues :=
        if d.hasChange "parameters" then
          some (expandParameterGroupParameterNameValue (d.getParams "parameters"))
        else none }
  match conn.updateParameterGroup input with
  | some e => (d, some (.aws e))
  | none => resourceAwsDaxParameterGroupRead conn d

/-- Request that `resourceAwsDaxParameterGroupCreate` sends: the configured
name, and the configured description only when `GetOk` reports it set. -/
def daxCreateInput (d : ResourceData) : CreateParameterGroupInput :=
  { parameterGroupName := some (d.getStr "name")
    description := d.getOkStr "description" }

/-- Embedding of `resourceAwsDaxParameterGroupCreate`: create, set the
identifier to the configured name, then update when parameters were
configured, else read. -/
def resourceAwsDaxParameterGroupCreate (conn : DaxConn) (d : ResourceData) :
    ResourceData × Option OpError :=
  match conn.createParameterGroup (daxCreateInput d) with
  | some e => (d, some (.aws e))
  | none =>
    let d := d.setId (d.getStr "name")
    if (d.getParams "parameters").length > 0 then
      resourceAwsDaxParameterGroupUpdate conn d
    else resourceAwsDaxParameterGroupRead conn d

/-- Embedding of `resourceAwsDaxParameterGroupDelete`: a not-found error on
deletion is swallowed. -/
def resourceAwsDaxParameterGroupDelete (conn : DaxConn) (d : ResourceData) :
    Option OpError :=
  match conn.deleteParameterGroup d.ident with
  | some e =>
    if ErrMessageContains (some e) ErrCodeParameterGroupNotFoundFault "" then none
    else some (.aws e)
  | none => none

/-! EC2 transit gateway peering attachment, embedded from the `ec2`
source file. -/

/-- Constant `ec2.TransitGatewayAttachmentStateDeleting` of the AWS SDK. -/
def TransitGatewayAttachmentStateDeleting : String := "deleting"

/-- Constant `ec2.TransitGatewayAttachmentStateDeleted` of the AWS SDK. -/
def TransitGatewayAttachmentStateDeleted : String := "deleted"

/-- Field subset of `ec2.PeeringTgwInfo`. -/
structure PeeringTgwInfo where
  ownerId : Option String
  region : Option String
  transitGatewayId : Option String
deriving DecidableEq, Repr

/-- Field subset of `ec2.TransitGatewayPeeringAttachment`. -/
structure TransitGatewayPeeringAttachment where
  state : Option String
  accepterTgwInfo : PeeringTgwInfo
  requesterTgwInfo : PeeringTgwInfo
  tags : List (String × String)
deriving DecidableEq, Repr

/-- Tag post-processing owned by the client configuration
(`IgnoreAws().IgnoreConfig(...)` and `RemoveDefaultConfig(...)`, defined
outside the provided source files); kept abstract since the design document
places tag normalization out of scope. -/
structure TagsConfig where
  processTags : List (String × String) → List (String × String)
  removeDefaults : List (String × String) → List (String × String)

/-- EC2 connection for the transit gateway peering attachment. The deletion
waiter (`waitForEc2TransitGatewayPeeringAttachmentDeletion`, an
instantiation of the Lifecycle Poller defined outside the provided source
files) is kept abstract. -/
structure Ec2TgwConn where
  describeTransitGatewayPeeringAttachment :
    String → Except AwsErr (Option TransitGatewayPeeringAttachment)
  deleteTransitGatewayPeeringAttachment : String → Option AwsErr
  waitForDeletion : String → Option AwsErr

/-- Embedding of `resourceAwsEc2TransitGatewayPeeringAttachmentRead`: a
not-found error, an absent attachment, or a deleting/deleted state clears
the identifier and succeeds; otherwise the peering fields and tags are
written back. -/
def resourceAwsEc2TransitGatewayPeeringAttachmentRead (conn : Ec2TgwConn)
    (cfg : TagsConfig) (d : ResourceData) : ResourceData × Option OpError :=
  match conn.describeTransitGatewayPeeringAttachment d.ident with
  | .error e =>
    if ErrMessageContains (some e) "InvalidTransitGatewayAttachmentID.NotFound" "" then
      (d.setId "", none)
    else (d, some (.wrapped "error reading EC2 Transit Gateway Peering Attachment" e))
  | .ok none => (d.setId "", none)
  | .ok (some att) =>
    if att.state.getD "" == TransitGatewayAttachmentStateDeleting
        || att.state.getD "" == TransitGatewayAttachmentStateDeleted then
      (d.setId "", none)
    else
      let d := d.set "peer_account_id" (.str (att.accepterTgwInfo.ownerId.getD ""))
      let d := d.set "peer_region" (.str (att.accepterTgwInfo.region.getD ""))
      let d := d.set "peer_transit_gateway_id"
        (.str (att.accepterTgwInfo.transitGatewayId.getD ""))
      let d := d.set "transit_gateway_id"
        (.str (att.requesterTgwInfo.transitGatewayId.getD ""))
      let tags := cfg.processTags att.tags
      let d := d.set "tags" (.strMap (cfg.removeDefaults tags))
      let d := d.set "tags_all" (.strMap tags)
      (d, none)

/-- Embedding of `resourceAwsEc2TransitGatewayPeeringAttachmentDelete`: a
not-found error on deletion is swallowed; otherwise deletion is awaited. -/
def resourceAwsEc2TransitGatewayPeeringAttachmentDelete (conn : Ec2TgwConn)
    (d : ResourceData) : Option OpError :=
  match conn.deleteTransitGatewayPeeringAttachment d.ident with
  | some e =>
    if ErrMessageContains (some e) "InvalidTransitGatewayAttachmentID.NotFound" "" then none
    else some (.wrapped "error deleting EC2 Transit Gateway Peering Attachment" e)
  | none =>
    match conn.waitForDeletion d.ident with
    | some e =>
      some (.wrapped "error waiting for EC2 Transit Gateway Peering Attachment deletion" e)
    | none => none

/-! EC2 carrier gateway deletion, embedded from the `ec2` source file. -/

/-- Constant `errCodeInvalidCarrierGatewayIDNotFound` (defined outside the
provided source files; the EC2 API error code for an unknown carrier
gateway identifier). -/
def errCodeInvalidCarrierGatewayIDNotFound : String := "InvalidCarrierGatewayID.NotFound"

/-- EC2 connection for the carrier gateway; the deletion waiter
(`waitCarrierGatewayDeleted`, an instantiation of the Lifecycle Poller
defined outside the provided source files) is kept abstract. -/
structure CarrierGatewayConn where
  deleteCarrierGateway : String → Option AwsErr
  waitDeleted : String → Option AwsErr

/-- Embedding of `resourceAwsEc2CarrierGatewayDelete`: a not-found error on
deletion is swallowed; otherwise deletion is awaited. -/
def resourceAwsEc2CarrierGatewayDelete (conn : CarrierGatewayConn)
    (d : ResourceData) : Option OpError :=
  match conn.deleteCarrierGateway d.ident with
  | some e =>
    if ErrCodeEquals (some e) errCodeInvalidCarrierGatewayIDNotFound then none
    else some (.wrapped "error deleting EC2 Carrier Gateway" e)
  | none =>
    match conn.waitDeleted d.ident with
    | some e => some (.wrapped "error waiting for EC2 Carrier Gateway to be deleted" e)
    | none => none

/-! Route 53 Resolver rule data source, embedded from the `aws` source
file. -/

/-- Constant `route53ResolverRuleStatusDeleted` (defined outside the
provided source files; the refresh status that marks an absent rule). -/
def route53ResolverRuleStatusDeleted : String := "DELETED"

/-- Constant `route53resolver.ShareStatusSharedWithMe` of the AWS SDK. -/
def ShareStatusSharedWithMe : String := "SHARED_WITH_ME"

/-- Field subset of `route53resolver.ResolverRule`. -/
structure ResolverRule where
  id : Option String
  arn : Option String
  domainName : Option String
  name : Option String
  ownerId : Option String
  resolverEndpointId : Option String
  ruleType : Option String
  shareStatus : Option String
deriving DecidableEq, Repr

/-- Request filter of `route53resolver.Filter`. -/
structure Route53Filter where
  name : String
  values : List String
deriving DecidableEq, Repr

/-- Embedding of `buildRoute53ResolverAttributeFilterList`: empty values
are skipped, the rest become one single-valued filter each. The
Go map is modelled as the ordered pair list of the (single) call site. -/
def buildRoute53ResolverAttributeFilterList (attrs : List (String × String)) :
    List Route53Filter :=
  attrs.filterMap (fun kv =>
    if kv.2 == "" then none else some ⟨kv.1, [kv.2]⟩)

/-- Modelled from the spec: `trimTrailingPeriod` (defined outside the
provided source files): per the source comment, the trailing period of a
domain name returned by the API is removed. -/
def trimTrailingPeriod (s : String) : String :=
  if s.toList.getLast? == some '.' then
    String.mk (s.toList.dropLast)
  else s

/-- Route 53 Resolver connection. The single-rule refresh
(`route53ResolverRuleRefresh`, defined outside the provided source files)
is kept abstract; it yields the Go triple `(ruleRaw, state, err)`. -/
structure Route53ResolverConn where
  ruleRefresh : String → RefreshResult ResolverRule
  listResolverRules : List Route53Filter → Except AwsErr (List ResolverRule)
  listTags : String → Except AwsErr (List (String × String))

/-- Output phase of `dataSourceAwsRoute53ResolverRuleRead` once a unique
rule is in hand: identifier and attributes are written, and tags are
listed unless the rule is shared with the caller. -/
def route53ResolverRuleSetOutput (conn : Route53ResolverConn) (cfg : TagsConfig)
    (d : ResourceData) (rule : ResolverRule) : ResourceData × Option OpError :=
  let d := d.setId (rule.id.getD "")
  let d := d.set "arn" (.str (rule.arn.getD ""))
  let d := d.set "domain_name" (.str (trimTrailingPeriod (rule.domainName.getD "")))
  let d := d.set "name" (.str (rule.name.getD ""))
  let d := d.set "owner_id" (.str (rule.ownerId.getD ""))
  let d := d.set "resolver_endpoint_id" (.str (rule.resolverEndpointId.getD ""))
  let d := d.set "resolver_rule_id" (.str (rule.id.getD ""))
  let d := d.set "rule_type" (.str (rule.ruleType.getD ""))
  let shareStatus := rule.shareStatus.getD ""
  let d := d.set "share_status" (.str shareStatus)
  if shareStatus != ShareStatusSharedWithMe then
    match conn.listTags (rule.arn.getD "") with
    | .error e => (d, some (.wrapped "error listing tags for Route 53 Resolver rule" e))
    | .ok tags => (d.set "tags" (.strMap (cfg.processTags tags)), none)
  else (d, none)

/-- Embedding of `dataSourceAwsRoute53ResolverRuleRead`: an explicit lookup
that matches no rule (a deleted status for a queried identifier, or zero
rules matching the attribute filters) is a caller-visible error, never a
silent state clear; more than one match is likewise an error. -/
def dataSourceAwsRoute53ResolverRuleRead (conn : Route53ResolverConn)
    (cfg : TagsConfig) (d : ResourceData) : ResourceData × Option OpError :=
  match d.getOkStr "resolver_rule_id" with
  | some v =>
    match conn.ruleRefresh v with
    | .err e => (d, some (.wrapped "error getting Route53 Resolver rule" e))
    | .ok obj state =>
      if state == route53ResolverRuleStatusDeleted then
        (d, some (.msg "no Route53 Resolver rules matched found with the id"))
      else
        match obj with
        | some rule => route53ResolverRuleSetOutput conn cfg d rule
        | none =>
          (d, some (.msg "panic: interface conversion on nil resolver rule"))
  | none =>
    let filters := buildRoute53ResolverAttributeFilterList
      [("DOMAIN_NAME", d.getStr "domain_name"),
       ("NAME", d.getStr "name"),
       ("RESOLVER_ENDPOINT_ID", d.getStr "resolver_endpoint_id"),
       ("TYPE", d.getStr "rule_type")]
    match conn.listResolverRules filters with
    | .error e => (d, some (.wrapped "error getting Route53 Resolver rule" e))
    | .ok [] => (d, some (.msg "no Route53 Resolver rules matched"))
    | .ok [rule] => route53ResolverRuleSetOutput conn cfg d rule
    | .ok (_ :: _ :: _) =>
      (d, some (.msg "Route53 Resolver rules matched; use additional constraints to reduce matches to a rule"))

/-! SES active receipt rule set, embedded from the `ses` source file. -/

/-- Constant `ses.ErrCodeRuleSetDoesNotExistException` of the AWS SDK. -/
def ErrCodeRuleSetDoesNotExistException : String := "RuleSetDoesNotExist"

/-- Field subset of `ses.ReceiptRuleSetMetadata`. -/
structure SesMetadata where
  name : Option String
deriving DecidableEq, Repr

/-- Client handle fields used by the handlers (`client.AWSClient`). -/
structure ClientMeta where
  partition : String
  region : String
  accountID : String
deriving DecidableEq, Repr

/-- SES connection: activate a rule set (nil name deactivates) and
describe the active one (absent metadata when none is active). -/
structure SesConn where
  setActiveReceiptRuleSet : Option String → Option AwsErr
  describeActiveReceiptRuleSet : Except AwsErr (Option SesMetadata)

/-- ARN built by `resourceAwsSesActiveReceiptRuleSetRead` from the client
metadata and the current identifier. -/
def sesActiveReceiptRuleSetArn (meta : ClientMeta) (id : String) : String :=
  "arn:" ++ meta.partition ++ ":ses:" ++ meta.region ++ ":" ++ meta.accountID
    ++ ":receipt-rule-set/" ++ id

/-- Embedding of `resourceAwsSesActiveReceiptRuleSetRead`: a missing rule
set or absent metadata clears the identifier and succeeds; otherwise the
name and the ARN are written back. -/
def resourceAwsSesActiveReceiptRuleSetRead (conn : SesConn) (meta : ClientMeta)
    (d : ResourceData) : ResourceData × Option OpError :=
  match conn.describeActiveReceiptRuleSet with
  | .error e =>
    if ErrMessageContains (some e) ErrCodeRuleSetDoesNotExistException "" then
      (d.setId "", none)
    else (d, some (.aws e))
  | .ok none => (d.setId "", none)
  | .ok (some md) =>
    let d := d.set "rule_set_name" (.str (md.name.getD ""))
    let d := d.set "arn" (.str (sesActiveReceiptRuleSetArn meta d.ident))
    (d, none)

/-- Embedding of `resourceAwsSesActiveReceiptRuleSetUpdate` (also the Create
handler): activate the configured rule set, set the identifier to its name,
then read back. -/
def resourceAwsSesActiveReceiptRuleSetUpdate (conn : SesConn) (meta : ClientMeta)
    (d : ResourceData) : ResourceData × Option OpError :=
  let ruleSetName := d.getStr "rule_set_name"
  match conn.setActiveReceiptRuleSet (some ruleSetName) with
  | some e => (d, some (.wrapped "Error setting active SES rule set" e))
  | none => resourceAwsSesActiveReceiptRuleSetRead conn meta (d.setId ruleSetName)

/-! Security Hub organization configuration, embedded from the
`securityhub` source file. -/

/-- Security Hub connection. -/
structure SecurityHubConn where
  updateOrganizationConfiguration : Bool → Option AwsErr
  describeOrganizationConfiguration : Except AwsErr (Option Bool)

/-- Embedding of `resourceAwsSecurityHubOrganizationConfigurationRead`. -/
def resourceAwsSecurityHubOrganizationConfigurationRead (conn : SecurityHubConn)
    (d : ResourceData) : ResourceData × Option OpError :=
  match conn.describeOrganizationConfiguration with
  | .error e =>
    (d, some (.wrapped "error reading Security Hub Organization Configuration" e))
  | .ok v => (d.set "auto_enable" (.boolean (v.getD false)), none)

/-- Embedding of `resourceAwsSecurityHubOrganizationConfigurationUpdate`
(also the Create handler): push the auto-enable flag, set the identifier to
the caller's account, then read back. -/
def resourceAwsSecurityHubOrganizationConfigurationUpdate (conn : SecurityHubConn)
    (meta : ClientMeta) (d : ResourceData) : ResourceData × Option OpError :=
  match conn.updateOrganizationConfiguration (d.getBool "auto_enable") with
  | some e =>
    (d, some (.wrapped "error updating Security Hub Organization Configuration" e))
  | none =>
    resourceAwsSecurityHubOrganizationConfigurationRead conn (d.setId meta.accountID)

/-! Service Catalog constraint, embedded from the `servicecatalog` source
file, together with the bounded-retry helper of the plugin SDK modelled
from the design document. -/

/-- Constant `servicecatalog.ErrCodeInvalidParametersException` of the
AWS SDK. -/
def ErrCodeInvalidParametersException : String := "InvalidParametersException"

/-- Constant `servicecatalog.ErrCodeResourceNotFoundException` of the
AWS SDK. -/
def ErrCodeResourceNotFoundException : String := "ResourceNotFoundException"

/-- Constant `acceptLanguageEnglish` (defined outside the provided source
files; the schema default for `accept_language`). -/
def acceptLanguageEnglish : String := "en"

/-- Outcome of a bounded retry loop. -/
inductive RetryOutcome (α : Type) where
  | ok (a : α)
  | failed (e : AwsErr)
  | timedOut
deriving DecidableEq, Repr

/-- Modelled from the spec: loop body of `resource.Retry` of the
terraform-plugin-sdk (whose source is not part of this repository):
request-level transient errors, as classified by the call site's retryable
predicate, are retried for a bounded number of attempts (the retry
window); a success or a non-retryable error ends the loop immediately;
exhausting the window while still retrying times out. -/
def retryGo {α : Type} (call : Nat → Except AwsErr α) (retryable : AwsErr → Bool) :
    Nat → Nat → RetryOutcome α
  | 0, _ => .timedOut
  | fuel + 1, i =>
    match call i with
    | .ok a => .ok a
    | .error e => if retryable e then retryGo call retryable fuel (i + 1) else .failed e

/-- Modelled from the spec: `resource.Retry` entry point, attempts indexed
from zero. -/
def Retry {α : Type} (window : Nat) (call : Nat → Except AwsErr α)
    (retryable : AwsErr → Bool) : RetryOutcome α :=
  retryGo call retryable window 0

/-- Field subset of `servicecatalog.ConstraintDetail`. -/
structure ConstraintDetail where
  constraintId : Option String
  description : Option String
  owner : Option String
  portfolioId : Option String
  productId : Option String
  ctype : Option String
deriving DecidableEq, Repr

/-- Field subset of `servicecatalog.CreateConstraintOutput`. -/
structure CreateConstraintOutput where
  constraintDetail : Option ConstraintDetail
deriving DecidableEq, Repr

/-- Field subset of `servicecatalog.DescribeConstraintOutput` as produced
by the ready waiter. -/
structure DescribeConstraintOutput where
  constraintDetail : Option ConstraintDetail
  constraintParameters : Option String
  status : Option String
deriving DecidableEq, Repr

/-- Request body of `servicecatalog.CreateConstraintInput`. -/
structure CreateConstraintInput where
  acceptLanguage : Option String
  description : Option String
  idempotencyToken : Option String
  parameters : Option String
  portfolioId : Option String
  productId : Option String
  ctype : Option String
deriving DecidableEq, Repr

/-- Request body of `servicecatalog.UpdateConstraintInput`. -/
structure UpdateConstraintInput where
  id : Option String
  acceptLanguage : Option String
  description : Option String
  parameters : Option String
deriving DecidableEq, Repr

/-- Request body of `servicecatalog.DeleteConstraintInput`. -/
structure DeleteConstraintInput where
  id : Option String
  acceptLanguage : Option String
deriving DecidableEq, Repr

/-- Service Catalog connection: the mutating calls are indexed by attempt
number so that successive retry attempts can observe different responses.
The two waiters (`waitConstraintReady` and `waitConstraintDeleted`,
instantiations of the Lifecycle Poller defined outside the provided source
files) are kept abstract. -/
structure SCConn where
  createConstraint : Nat → CreateConstraintInput → Except AwsErr CreateConstraintOutput
  updateConstraint : Nat → UpdateConstraintInput → Except AwsErr Unit
  deleteConstraint : DeleteConstraintInput → Option AwsErr
  waitConstraintReady : String → String → Except ScWaitErr DescribeConstraintOutput
  waitConstraintDeleted : String → String → Option ScWaitErr

/-- Retryability classification of the Create closure: an
invalid-parameters error whose message contains "profile does not exist",
or a resource-not-found error, is retryable; everything else is not. -/
def scConstraintCreateRetryable (e : AwsErr) : Bool :=
  ErrMessageContains (some e) ErrCodeInvalidParametersException "profile does not exist"
    || ErrCodeEquals (some e) ErrCodeResourceNotFoundException

/-- Retryability classification of the Update closure: only an
invalid-parameters error whose message contains "profile does not exist"
is retryable. -/
def scConstraintUpdateRetryable (e : AwsErr) : Bool :=
  ErrMessageContains (some e) ErrCodeInvalidParametersException "profile does not exist"

/-- Embedding of `resourceAwsServiceCatalogConstraintRead`: the ready
waiter's not-found outcome clears the identifier and succeeds, except on a
freshly created resource; otherwise the constraint fields are written
back, with the empty accept-language attribute defaulted to English. -/
def resourceAwsServiceCatalogConstraintRead (conn : SCConn) (isNew : Bool)
    (d : ResourceData) : ResourceData × Option OpError :=
  match conn.waitConstraintReady (d.getStr "accept_language") d.ident with
  | .error w =>
    if !isNew && tfresourceNotFound w then (d.setId "", none)
    else (d, some (.scWait "error describing Service Catalog Constraint" w))
  | .ok output =>
    match output.constraintDetail with
    | none => (d, some (.msg "error getting Service Catalog Constraint: empty response"))
    | some detail =>
      let acceptLanguage := d.getStr "accept_language"
      let acceptLanguage :=
        if acceptLanguage == "" then acceptLanguageEnglish else acceptLanguage
      let d := d.set "accept_language" (.str acceptLanguage)
      let d := d.set "parameters" (.str (output.constraintParameters.getD ""))
      let d := d.set "status" (.str (output.status.getD ""))
      let d := d.set "description" (.str (detail.description.getD ""))
      let d := d.set "owner" (.str (detail.owner.getD ""))
      let d := d.set "portfolio_id" (.str (detail.portfolioId.getD ""))
      let d := d.set "product_id" (.str (detail.productId.getD ""))
      let d := d.set "type" (.str (detail.ctype.getD ""))
      (d, none)

/-- Request that `resourceAwsServiceCatalogConstraintCreate` sends; the
idempotency token (`resource.UniqueId()`) is a parameter. -/
def scCreateInput (token : String) (d : ResourceData) : CreateConstraintInput :=
  { idempotencyToken := some token
    parameters := some (d.getStr "parameters")
    portfolioId := some (d.getStr "portfolio_id")
    productId := some (d.getStr "product_id")
    ctype := some (d.getStr "type")
    acceptLanguage := d.getOkStr "accept_language"
    description := d.getOkStr "description" }

/-- Attempt phase of `resourceAwsServiceCatalogConstraintCreate` (the
`resource.Retry` call followed by the `tfresource.TimedOut` check): retry
within the window, and when the window times out make one additional
immediate attempt whose outcome is final. -/
def scConstraintCreateAttempts (conn : SCConn) (window : Nat)
    (input : CreateConstraintInput) : Except AwsErr CreateConstraintOutput :=
  match Retry window (fun i => conn.createConstraint i input) scConstraintCreateRetryable with
  | .ok o => .ok o
  | .failed e => .error e
  | .timedOut => conn.createConstraint window input

/-- Embedding of `resourceAwsServiceCatalogConstraintCreate`: run the
retried create, fail on error or empty response, otherwise set the
identifier from the response and read back as a new resource. -/
def resourceAwsServiceCatalogConstraintCreate (conn : SCConn) (window : Nat)
    (token : String) (d : ResourceData) : ResourceData × Option OpError :=
  match scConstraintCreateAttempts conn window (scCreateInput token d) with
  | .error e => (d, some (.wrapped "error creating Service Catalog Constraint" e))
  | .ok output =>
    match output.constraintDetail with
    | none => (d, some (.msg "error creating Service Catalog Constraint: empty response"))
    | some detail =>
      resourceAwsServiceCatalogConstraintRead conn true
        (d.setId (detail.constraintId.getD ""))

/-- Request that `resourceAwsServiceCatalogConstraintUpdate` sends: only
changed attributes are populated. -/
def scUpdateInput (d : ResourceData) : UpdateConstraintInput :=
  { id := some d.ident
    acceptLanguage :=
      if d.hasChange "accept_language" then some (d.getStr "accept_language") else none
    description :=
      if d.hasChange "description" then some (d.getStr "description") else none
    parameters :=
      if d.hasChange "parameters" then some (d.getStr "parameters") else none }

/-- Attempt phase of `resourceAwsServiceCatalogConstraintUpdate` (the
`resource.Retry` call followed by the `tfresource.TimedOut` check). -/
def scConstraintUpdateAttempts (conn : SCConn) (window : Nat)
    (input : UpdateConstraintInput) : Except AwsErr Unit :=
  match Retry window (fun i => conn.updateConstraint i input) scConstraintUpdateRetryable with
  | .ok u => .ok u
  | .failed e => .error e
  | .timedOut => conn.updateConstraint window input

/-- Embedding of `resourceAwsServiceCatalogConstraintUpdate`: run the
retried update, fail on error, otherwise read back. -/
def resourceAwsServiceCatalogConstraintUpdate (conn : SCConn) (window : Nat)
    (d : ResourceData) : ResourceData × Option OpError :=
  match scConstraintUpdateAttempts conn window (scUpdateInput d) with
  | .error e => (d, some (.wrapped "error updating Service Catalog Constraint" e))
  | .ok _ => resourceAwsServiceCatalogConstraintRead conn false d

/-- Embedding of `resourceAwsServiceCatalogConstraintDelete`: a
resource-not-found error on deletion is swallowed; otherwise deletion is
awaited, the waiter's not-found outcome again counting as success. -/
def resourceAwsServiceCatalogConstraintDelete (conn : SCConn) (d : ResourceData) :
    Option OpError :=
  let input : DeleteConstraintInput :=
    { id := some d.ident, acceptLanguage := d.getOkStr "accept_language" }
  match conn.deleteConstraint input with
  | some e =>
    if ErrCodeEquals (some e) ErrCodeResourceNotFoundException then none
    else some (.wrapped "error deleting Service Catalog Constraint" e)
  | none =>
    match conn.waitConstraintDeleted (d.getStr "accept_language") d.ident with
    | some w =>
      if tfresourceNotFound w then none
      else some (.scWait "error waiting for Service Catalog Constraint to be deleted" w)
    | none => none

/-! General lemmas about the string and attribute-map helpers. -/

theorem listHasRun_nil {α : Type} [BEq α] (l : List α) : listHasRun l [] = true := by
  cases l <;> simp [listHasRun, listStarts]

theorem strContains_empty (s : String) : strContains s "" = true := by
  have h : ("" : String).toList = ([] : List Char) := rfl
  unfold strContains
  rw [h]
  exact listHasRun_nil _

theorem errMessageContains_self (code m : String) :
    ErrMessageContains (some ⟨code, m⟩) code "" = true := by
  simp [ErrMessageContains, strContains_empty]

/-! Claim C1: absence observed by the poller is terminal success exactly
when the target set is empty. -/

/-- Refresh outcome of the FSx lifecycle refresh when the API keeps
reporting the not-found error class: the Go triple `(nil, "", nil)`. -/
theorem refreshFsxFileSystemLifecycle_notFound (conn : FsxConn) (msg : Nat → String)
    (id : String)
    (h : ∀ n, conn.describePages n = .error ⟨ErrCodeFileSystemNotFound, msg n⟩) :
    ∀ n, refreshFsxFileSystemLifecycle conn id n = .ok none "" := by
  intro n
  simp [refreshFsxFileSystemLifecycle, describeFsxFileSystem, Except.map, h n,
    ErrMessageContains, strContains_empty]

/-- C1: when the describe operation always reports the resource absent
(not-found class of error), the deletion waiter — whose target state set is
empty, absence being the desired state — returns success as soon as
not-found is observed (any positive poll budget suffices), whereas the
creation waiter — whose target set is non-empty — never treats not-found as
success and returns an error. -/
theorem C1_absence_terminal_iff_empty_target (conn : FsxConn) (msg : Nat → String)
    (id : String) (t : Nat)
    (h : ∀ n, conn.describePages n = .error ⟨ErrCodeFileSystemNotFound, msg n⟩) :
    (1 ≤ t → waitForFsxFileSystemDeletion conn id t = none) ∧
      (waitForFsxFileSystemCreation conn id t).isSome = true := by
  have hr := refreshFsxFileSystemLifecycle_notFound conn msg id h
  constructor
  · intro ht
    obtain ⟨k, rfl⟩ : ∃ k, t = k + 1 := ⟨t - 1, by omega⟩
    simp [waitForFsxFileSystemDeletion, WaitForState, waitForStateGo, hr 0]
  · match t with
    | 0 => simp [waitForFsxFileSystemCreation, WaitForState, waitForStateGo]
    | (k+1) => simp [waitForFsxFileSystemCreation, WaitForState, waitForStateGo, hr 0]

/-- Connection whose describe operation always fails with the not-found
error class. -/
def c1conn : FsxConn :=
  { describePages := fun _ => .error ⟨ErrCodeFileSystemNotFound, ""⟩ }

/-- Witness for C1 at a concrete always-not-found connection: the deletion
waiter succeeds on the first poll and the creation waiter errors. -/
theorem C1_absence_terminal_iff_empty_target_witness :
    (∀ n, c1conn.describePages n = .error ⟨ErrCodeFileSystemNotFound, ""⟩) ∧
      waitForFsxFileSystemDeletion c1conn "fs-1" 1 = none ∧
      (waitForFsxFileSystemCreation c1conn "fs-1" 1).isSome = true := by
  refine ⟨fun _ => rfl, ?_, ?_⟩
  · exact (C1_absence_terminal_iff_empty_target c1conn (fun _ => "") "fs-1" 1
      (fun _ => rfl)).1 (by omega)
  · exact (C1_absence_terminal_iff_empty_target c1conn (fun _ => "") "fs-1" 1
      (fun _ => rfl)).2

/-! Claim C2: a timed-out creation poll surfaces the failure detail of the
last observed resource state. -/

/-- C2: when the creation poll times out with a generic timeout error and
the last successfully observed file system carries a failure-detail
message, `waitForFsxFileSystemCreation` returns the timeout error enriched
with that message rather than the generic timeout alone. -/
theorem C2_timeout_surfaces_failure_detail (conn : FsxConn) (id : String) (t : Nat)
    (fs : FileSystem) (m : String)
    (h1 : WaitForState
      { pending := [FileSystemLifecycleCreating]
        target := [FileSystemLifecycleAvailable]
        refresh := refreshFsxFileSystemLifecycle conn id
        timeout := t } = (some fs, some (.timeout none)))
    (h2 : fs.failureDetails = some { message := some m }) :
    waitForFsxFileSystemCreation conn id t = some (.timeout (some m)) := by
  unfold waitForFsxFileSystemCreation
  rw [h1]
  simp [h2, SetLastError]

/-- File system that stays in the CREATING state and carries a
failure-detail message. -/
def c2fs : FileSystem :=
  { fileSystemId := some "fs-1", lifecycle := some "CREATING"
    administrativeActions := [], failureDetails := some { message := some "boom" } }

/-- Connection that always observes `c2fs`. -/
def c2conn : FsxConn := { describePages := fun _ => .ok [[c2fs]] }

/-- Witness for C2 at a concrete connection that never leaves CREATING:
the two-poll creation wait times out and reports the failure detail. -/
theorem C2_timeout_surfaces_failure_detail_witness :
    WaitForState
      { pending := [FileSystemLifecycleCreating]
        target := [FileSystemLifecycleAvailable]
        refresh := refreshFsxFileSystemLifecycle c2conn "fs-1"
        timeout := 2 } = (some c2fs, some (.timeout none)) ∧
      c2fs.failureDetails = some { message := some "boom" } ∧
      waitForFsxFileSystemCreation c2conn "fs-1" 2 = some (.timeout (some "boom")) := by
  refine ⟨rfl, rfl, ?_⟩
  exact C2_timeout_surfaces_failure_detail c2conn "fs-1" 2 c2fs "boom" rfl rfl

/-! Claim C8: the concrete CREATING, CREATING, AVAILABLE poll sequence. -/

/-- File system observed by the C8 scenario, parameterized by lifecycle. -/
def c8fs (s : String) : FileSystem :=
  { fileSystemId := some "fs-1", lifecycle := some s
    administrativeActions := [], failureDetails := none }

/-- Connection whose describe operation reports lifecycle CREATING on the
first two calls and AVAILABLE from the third on. -/
def c8conn : FsxConn :=
  { describePages := fun n => .ok [[c8fs (if n < 2 then "CREATING" else "AVAILABLE")]] }

/-- C8: with pending {CREATING} and target {AVAILABLE}, a describe function
returning CREATING, CREATING, AVAILABLE on successive calls makes the
creation waiter succeed on the third call: the successive refreshes observe
exactly those statuses, a three-poll budget returns success, and a two-poll
budget still times out. -/
theorem C8_third_call_success :
    refreshFsxFileSystemLifecycle c8conn "fs-1" 0 = .ok (some (c8fs "CREATING")) "CREATING" ∧
      refreshFsxFileSystemLifecycle c8conn "fs-1" 1 = .ok (some (c8fs "CREATING")) "CREATING" ∧
      refreshFsxFileSystemLifecycle c8conn "fs-1" 2 = .ok (some (c8fs "AVAILABLE")) "AVAILABLE" ∧
      waitForFsxFileSystemCreation c8conn "fs-1" 3 = none ∧
      waitForFsxFileSystemCreation c8conn "fs-1" 2 = some (.timeout none) :=
  ⟨rfl, rfl, rfl, rfl, rfl⟩

/-! Claim C9: an absent administrative action refreshes as Completed, a
target state. -/

/-- C9: when the file system observed on the first poll has no
administrative action of the requested type, the administrative-action
refresh reports `StatusCompleted`, a target state, so the update
administrative-action waiter succeeds immediately for any positive poll
budget. -/
theorem C9_missing_admin_action_completes (conn : FsxConn) (id action : String)
    (t : Nat) (pages : List (List FileSystem)) (fs : FileSystem)
    (h1 : conn.describePages 0 = .ok pages)
    (h2 : findFileSystemInPages id pages = some fs)
    (h3 : findAdminAction action fs.administrativeActions = none)
    (ht : 1 ≤ t) :
    waitForFsxFileSystemUpdateAdministrativeActionsStatusFileSystemUpdate conn id action t
      = none := by
  obtain ⟨k, rfl⟩ : ∃ k, t = k + 1 := ⟨t - 1, by omega⟩
  have hr : refreshFsxFileSystemAdministrativeActionsStatusFileSystemUpdate conn id action 0
      = .ok (some fs) StatusCompleted := by
    simp [refreshFsxFileSystemAdministrativeActionsStatusFileSystemUpdate,
      describeFsxFileSystem, Except.map, h1, h2, h3]
  have hc : ([StatusCompleted, StatusUpdatedOptimizing] : List String).contains StatusCompleted
      = true := by rfl
  simp [waitForFsxFileSystemUpdateAdministrativeActionsStatusFileSystemUpdate,
    WaitForState, waitForStateGo, hr, hc]

/-- File system of the C9 witness: one nil entry and one action of an
unrelated type, none matching the requested action. -/
def c9fs : FileSystem :=
  { fileSystemId := some "fs-1", lifecycle := some "AVAILABLE"
    administrativeActions :=
      [none, some { administrativeActionType := some "STORAGE_OPTIMIZATION"
                    status := some "PENDING" }]
    failureDetails := none }

/-- Connection observing `c9fs` on every call. -/
def c9conn : FsxConn := { describePages := fun _ => .ok [[c9fs]] }

/-- Witness for C9 at a concrete file system carrying no
FILE_SYSTEM_UPDATE administrative action. -/
theorem C9_missing_admin_action_completes_witness :
    c9conn.describePages 0 = .ok [[c9fs]] ∧
      findFileSystemInPages "fs-1" [[c9fs]] = some c9fs ∧
      findAdminAction "FILE_SYSTEM_UPDATE" c9fs.administrativeActions = none ∧
      waitForFsxFileSystemUpdateAdministrativeActionsStatusFileSystemUpdate c9conn "fs-1"
        "FILE_SYSTEM_UPDATE" 5 = none := by
  refine ⟨rfl, rfl, rfl, ?_⟩
  exact C9_missing_admin_action_completes c9conn "fs-1" "FILE_SYSTEM_UPDATE" 5 [[c9fs]]
    c9fs rfl rfl rfl (by omega)

/-! Claim C3: Read clears local state on remote absence, while the
explicit data-source lookup surfaces an error. -/

/-- C3: a Read that finds the remote resource absent — a not-found error
class or an empty result, for the transit gateway peering attachment and
the DAX parameter group — clears the identifier and returns success,
whereas the Route 53 Resolver rule data source returns a caller-visible
error on a non-matching query, both for a queried identifier whose rule is
deleted and for attribute filters matching no rule. -/
theorem C3_read_clears_state_lookup_errors :
    (∀ (conn : Ec2TgwConn) (cfg : TagsConfig) (d : ResourceData) (m : String),
      conn.describeTransitGatewayPeeringAttachment d.ident
          = .error ⟨"InvalidTransitGatewayAttachmentID.NotFound", m⟩ →
      resourceAwsEc2TransitGatewayPeeringAttachmentRead conn cfg d = (d.setId "", none)) ∧
    (∀ (conn : Ec2TgwConn) (cfg : TagsConfig) (d : ResourceData),
      conn.describeTransitGatewayPeeringAttachment d.ident = .ok none →
      resourceAwsEc2TransitGatewayPeeringAttachmentRead conn cfg d = (d.setId "", none)) ∧
    (∀ (conn : DaxConn) (d : ResourceData) (m : String),
      conn.describeParameterGroups d.ident = .error ⟨ErrCodeParameterGroupNotFoundFault, m⟩ →
      resourceAwsDaxParameterGroupRead conn d = (d.setId "", none)) ∧
    (∀ (conn : DaxConn) (d : ResourceData),
      conn.describeParameterGroups d.ident = .ok [] →
      resourceAwsDaxParameterGroupRead conn d = (d.setId "", none)) ∧
    (∀ (conn : Route53ResolverConn) (cfg : TagsConfig) (d : ResourceData),
      d.getOkStr "resolver_rule_id" = none →
      conn.listResolverRules (buildRoute53ResolverAttributeFilterList
        [("DOMAIN_NAME", d.getStr "domain_name"),
         ("NAME", d.getStr "name"),
         ("RESOLVER_ENDPOINT_ID", d.getStr "resolver_endpoint_id"),
         ("TYPE", d.getStr "rule_type")]) = .ok [] →
      dataSourceAwsRoute53ResolverRuleRead conn cfg d
        = (d, some (.msg "no Route53 Resolver rules matched"))) ∧
    (∀ (conn : Route53ResolverConn) (cfg : TagsConfig) (d : ResourceData) (v : String)
        (obj : Option ResolverRule),
      d.getOkStr "resolver_rule_id" = some v →
      conn.ruleRefresh v = .ok obj route53ResolverRuleStatusDeleted →
      dataSourceAwsRoute53ResolverRuleRead conn cfg d
        = (d, some (.msg "no Route53 Resolver rules matched found with the id"))) := by
  refine ⟨?_, ?_, ?_, ?_, ?_, ?_⟩
  · intro conn cfg d m h
    simp [resourceAwsEc2TransitGatewayPeeringAttachmentRead, h,
      ErrMessageContains, strContains_empty]
  · intro conn cfg d h
    simp [resourceAwsEc2TransitGatewayPeeringAttachmentRead, h]
  · intro conn d m h
    simp [resourceAwsDaxParameterGroupRead, h, ErrMessageContains, strContains_empty]
  · intro conn d h
    simp [resourceAwsDaxParameterGroupRead, h]
  · intro conn cfg d h1 h2
    simp [dataSourceAwsRoute53ResolverRuleRead, h1, h2]
  · intro conn cfg d v obj h1 h2
    simp [dataSourceAwsRoute53ResolverRuleRead, h1, h2]

/-- Transit gateway connection that reports the attachment unknown. -/
def c3tgwConnNF : Ec2TgwConn :=
  { describeTransitGatewayPeeringAttachment :=
      fun _ => .error ⟨"InvalidTransitGatewayAttachmentID.NotFound", "gone"⟩
    deleteTransitGatewayPeeringAttachment := fun _ => none
    waitForDeletion := fun _ => none }

/-- Transit gateway connection whose describe returns no attachment. -/
def c3tgwConnNil : Ec2TgwConn :=
  { describeTransitGatewayPeeringAttachment := fun _ => .ok none
    deleteTransitGatewayPeeringAttachment := fun _ => none
    waitForDeletion := fun _ => none }

/-- DAX connection failing with the parameter-group-not-found fault. -/
def c3daxConnNF : DaxConn :=
  { describeParameterGroups := fun _ => .error ⟨ErrCodeParameterGroupNotFoundFault, ""⟩
    describeParameters := fun _ => .ok []
    createParameterGroup := fun _ => none
    updateParameterGroup := fun _ => none
    deleteParameterGroup := fun _ => none }

/-- DAX connection describing an empty parameter-group list. -/
def c3daxConnEmpty : DaxConn :=
  { describeParameterGroups := fun _ => .ok []
    describeParameters := fun _ => .ok []
    createParameterGroup := fun _ => none
    updateParameterGroup := fun _ => none
    deleteParameterGroup := fun _ => none }

/-- Route 53 Resolver connection on which every query misses: the refresh
reports the deleted status and the list returns no rule. -/
def c3r53conn : Route53ResolverConn :=
  { ruleRefresh := fun _ => .ok none route53ResolverRuleStatusDeleted
    listResolverRules := fun _ => .ok []
    listTags := fun _ => .ok [] }

/-- Identity tag post-processing used by concrete scenarios. -/
def idTagsConfig : TagsConfig :=
  { processTags := fun ts => ts, removeDefaults := fun ts => ts }

/-- Resource state with an identifier and no attributes. -/
def c3d : ResourceData := { ident := "res-1", attrs := [], changedKeys := [] }

/-- Data-source state querying an explicit resolver rule identifier. -/
def c3dRuleId : ResourceData :=
  { ident := "", attrs := [("resolver_rule_id", .str "rr-1")], changedKeys := [] }

/-- Witness for C3 at concrete connections: both reads clear the
identifier and succeed; both data-source lookups return errors. -/
theorem C3_read_clears_state_lookup_errors_witness :
    c3tgwConnNF.describeTransitGatewayPeeringAttachment c3d.ident
        = .error ⟨"InvalidTransitGatewayAttachmentID.NotFound", "gone"⟩ ∧
      resourceAwsEc2TransitGatewayPeeringAttachmentRead c3tgwConnNF idTagsConfig c3d
        = (c3d.setId "", none) ∧
      resourceAwsEc2TransitGatewayPeeringAttachmentRead c3tgwConnNil idTagsConfig c3d
        = (c3d.setId "", none) ∧
      resourceAwsDaxParameterGroupRead c3daxConnNF c3d = (c3d.setId "", none) ∧
      resourceAwsDaxParameterGroupRead c3daxConnEmpty c3d = (c3d.setId "", none) ∧
      c3d.getOkStr "resolver_rule_id" = none ∧
      dataSourceAwsRoute53ResolverRuleRead c3r53conn idTagsConfig c3d
        = (c3d, some (.msg "no Route53 Resolver rules matched")) ∧
      c3dRuleId.getOkStr "resolver_rule_id" = some "rr-1" ∧
      dataSourceAwsRoute53ResolverRuleRead c3r53conn idTagsConfig c3dRuleId
        = (c3dRuleId, some (.msg "no Route53 Resolver rules matched found with the id")) := by
  refine ⟨rfl, ?_, ?_, ?_, ?_, rfl, ?_, rfl, ?_⟩
  · exact C3_read_clears_state_lookup_errors.1 c3tgwConnNF idTagsConfig c3d "gone" rfl
  · exact C3_read_clears_state_lookup_errors.2.1 c3tgwConnNil idTagsConfig c3d rfl
  · exact C3_read_clears_state_lookup_errors.2.2.1 c3daxConnNF c3d "" rfl
  · exact C3_read_clears_state_lookup_errors.2.2.2.1 c3daxConnEmpty c3d rfl
  · exact C3_read_clears_state_lookup_errors.2.2.2.2.1 c3r53conn idTagsConfig c3d rfl rfl
  · exact C3_read_clears_state_lookup_errors.2.2.2.2.2 c3r53conn idTagsConfig c3dRuleId
      "rr-1" none rfl rfl

/-! Claim C10: Delete is idempotent on a not-found response. -/

/-- C10: for each resource whose Delete handler inspects API errors —
transit gateway peering attachment, DAX parameter group, carrier gateway
and Service Catalog constraint — a Delete whose API call reports the
resource's not-found error class returns success without error. -/
theorem C10_delete_idempotent_on_not_found :
    (∀ (conn : Ec2TgwConn) (d : ResourceData) (m : String),
      conn.deleteTransitGatewayPeeringAttachment d.ident
          = some ⟨"InvalidTransitGatewayAttachmentID.NotFound", m⟩ →
      resourceAwsEc2TransitGatewayPeeringAttachmentDelete conn d = none) ∧
    (∀ (conn : DaxConn) (d : ResourceData) (m : String),
      conn.deleteParameterGroup d.ident = some ⟨ErrCodeParameterGroupNotFoundFault, m⟩ →
      resourceAwsDaxParameterGroupDelete conn d = none) ∧
    (∀ (conn : CarrierGatewayConn) (d : ResourceData) (m : String),
      conn.deleteCarrierGateway d.ident = some ⟨errCodeInvalidCarrierGatewayIDNotFound, m⟩ →
      resourceAwsEc2CarrierGatewayDelete conn d = none) ∧
    (∀ (conn : SCConn) (d : ResourceData) (m : String),
      conn.deleteConstraint
          { id := some d.ident, acceptLanguage := d.getOkStr "accept_language" }
          = some ⟨ErrCodeResourceNotFoundException, m⟩ →
      resourceAwsServiceCatalogConstraintDelete conn d = none) := by
  refine ⟨?_, ?_, ?_, ?_⟩
  · intro conn d m h
    simp [resourceAwsEc2TransitGatewayPeeringAttachmentDelete, h,
      ErrMessageContains, strContains_empty]
  · intro conn d m h
    simp [resourceAwsDaxParameterGroupDelete, h, ErrMessageContains, strContains_empty]
  · intro conn d m h
    simp [resourceAwsEc2CarrierGatewayDelete, h, ErrCodeEquals]
  · intro conn d m h
    simp [resourceAwsServiceCatalogConstraintDelete, h, ErrCodeEquals]

/-- Resource state used by the C10 witness. -/
def c10d : ResourceData := { ident := "res-2", attrs := [], changedKeys := [] }

/-- Transit gateway connection whose delete reports the attachment gone. -/
def c10tgwConn : Ec2TgwConn :=
  { describeTransitGatewayPeeringAttachment := fun _ => .ok none
    deleteTransitGatewayPeeringAttachment :=
      fun _ => some ⟨"InvalidTransitGatewayAttachmentID.NotFound", ""⟩
    waitForDeletion := fun _ => none }

/-- DAX connection whose delete reports the parameter group gone. -/
def c10daxConn : DaxConn :=
  { describeParameterGroups := fun _ => .ok []
    describeParameters := fun _ => .ok []
    createParameterGroup := fun _ => none
    updateParameterGroup := fun _ => none
    deleteParameterGroup := fun _ => some ⟨ErrCodeParameterGroupNotFoundFault, ""⟩ }

/-- Carrier gateway connection whose delete reports the gateway gone. -/
def c10cgwConn : CarrierGatewayConn :=
  { deleteCarrierGateway := fun _ => some ⟨errCodeInvalidCarrierGatewayIDNotFound, ""⟩
    waitDeleted := fun _ => none }

/-- Service Catalog connection whose delete reports the constraint gone. -/
def c10scConn : SCConn :=
  { createConstraint := fun _ _ => .error ⟨"", ""⟩
    updateConstraint := fun _ _ => .ok ()
    deleteConstraint := fun _ => some ⟨ErrCodeResourceNotFoundException, ""⟩
    waitConstraintReady := fun _ _ => .error .notFound
    waitConstraintDeleted := fun _ _ => none }

/-- Witness for C10 at concrete connections: all four deletes succeed. -/
theorem C10_delete_idempotent_on_not_found_witness :
    c10tgwConn.deleteTransitGatewayPeeringAttachment c10d.ident
        = some ⟨"InvalidTransitGatewayAttachmentID.NotFound", ""⟩ ∧
      resourceAwsEc2TransitGatewayPeeringAttachmentDelete c10tgwConn c10d = none ∧
      resourceAwsDaxParameterGroupDelete c10daxConn c10d = none ∧
      resourceAwsEc2CarrierGatewayDelete c10cgwConn c10d = none ∧
      resourceAwsServiceCatalogConstraintDelete c10scConn c10d = none := by
  refine ⟨rfl, ?_, ?_, ?_, ?_⟩
  · exact C10_delete_idempotent_on_not_found.1 c10tgwConn c10d "" rfl
  · exact C10_delete_idempotent_on_not_found.2.1 c10daxConn c10d "" rfl
  · exact C10_delete_idempotent_on_not_found.2.2.1 c10cgwConn c10d "" rfl
  · exact C10_delete_idempotent_on_not_found.2.2.2 c10scConn c10d "" rfl

/-! Claim C5: identifier stability across Update. The SES active receipt
rule set derives its identifier from the current `rule_set_name`
attribute, which the schema does not mark ForceNew, so an Update invoked
with a changed attribute does move the identifier to a new non-empty
value; stability holds exactly when the identifier-deriving inputs are
unchanged. -/

/-- Projection lemma: setting an attribute leaves the identifier alone. -/
theorem ResourceData.set_ident (d : ResourceData) (k : String) (v : AttrVal) :
    (d.set k v).ident = d.ident := rfl

/-- Projection lemma: `SetId` stores the identifier. -/
theorem ResourceData.setId_ident (d : ResourceData) (i : String) :
    (d.setId i).ident = i := rfl

/-- SES connection on which activation always succeeds and the active rule
set is the one named "new". -/
def c5conn : SesConn :=
  { setActiveReceiptRuleSet := fun _ => none
    describeActiveReceiptRuleSet := .ok (some { name := some "new" }) }

/-- Client metadata of the C5 scenarios. -/
def c5meta : ClientMeta :=
  { partition := "aws", region := "us-east-1", accountID := "123456789012" }

/-- State whose identifier was assigned at creation as "old" but whose
`rule_set_name` attribute has since been changed to "new" — a legal plan,
the attribute not being ForceNew. -/
def c5dChanged : ResourceData :=
  { ident := "old", attrs := [("rule_set_name", .str "new")], changedKeys := [] }

/-- Counterexample to C5 as stated: an SES active receipt rule set Update
on a state whose `rule_set_name` attribute changed succeeds and moves the
identifier from "old" to the different non-empty value "new". -/
theorem C5_counterexample_ses_update_changes_identifier :
    (resourceAwsSesActiveReceiptRuleSetUpdate c5conn c5meta c5dChanged).1.ident = "new" ∧
      c5dChanged.ident = "old" ∧
      (resourceAwsSesActiveReceiptRuleSetUpdate c5conn c5meta c5dChanged).2 = none :=
  ⟨rfl, rfl, rfl⟩

/-- C5 (amended): Update preserves the identifier whenever the inputs it
re-derives the identifier from are unchanged. For the SES active receipt
rule set, when the `rule_set_name` attribute still equals the identifier
assigned at creation, Update re-derives that same identifier (or clears it
to the empty string when the remote rule set has vanished); for the
Security Hub organization configuration, Update always re-derives the
caller's account identifier, the one assigned at creation under the same
client. -/
theorem C5_identifier_stable_when_inputs_unchanged :
    (∀ (conn : SesConn) (meta : ClientMeta) (d : ResourceData),
      d.ident = d.getStr "rule_set_name" →
      (resourceAwsSesActiveReceiptRuleSetUpdate conn meta d).1.ident = d.ident ∨
        (resourceAwsSesActiveReceiptRuleSetUpdate conn meta d).1.ident = "") ∧
    (∀ (conn : SecurityHubConn) (meta : ClientMeta) (d : ResourceData),
      d.ident = meta.accountID →
      (resourceAwsSecurityHubOrganizationConfigurationUpdate conn meta d).1.ident
        = d.ident) := by
  constructor
  · intro conn meta d h
    cases hs : conn.setActiveReceiptRuleSet (some (d.getStr "rule_set_name")) with
    | some e =>
      left
      simp [resourceAwsSesActiveReceiptRuleSetUpdate, hs]
    | none =>
      cases hd : conn.describeActiveReceiptRuleSet with
      | error e =>
        by_cases hn : ErrMessageContains (some e) ErrCodeRuleSetDoesNotExistException "" = true
        · right
          simp [resourceAwsSesActiveReceiptRuleSetUpdate,
            resourceAwsSesActiveReceiptRuleSetRead, hs, hd, hn, ResourceData.setId_ident]
        · left
          rw [← h] at hs
          simp [resourceAwsSesActiveReceiptRuleSetUpdate,
            resourceAwsSesActiveReceiptRuleSetRead, hs, hd, hn,
            ResourceData.setId_ident, ← h]
      | ok md =>
        cases md with
        | none =>
          right
          simp [resourceAwsSesActiveReceiptRuleSetUpdate,
            resourceAwsSesActiveReceiptRuleSetRead, hs, hd, ResourceData.setId_ident]
        | some md =>
          left
          rw [← h] at hs
          simp [resourceAwsSesActiveReceiptRuleSetUpdate,
            resourceAwsSesActiveReceiptRuleSetRead, hs, hd,
            ResourceData.set_ident, ResourceData.setId_ident, ← h]
  · intro conn meta d h
    cases hs : conn.updateOrganizationConfiguration (d.getBool "auto_enable") with
    | some e =>
      simp [resourceAwsSecurityHubOrganizationConfigurationUpdate, hs]
    | none =>
      cases hd : conn.describeOrganizationConfiguration with
      | error e =>
        simp [resourceAwsSecurityHubOrganizationConfigurationUpdate,
          resourceAwsSecurityHubOrganizationConfigurationRead, hs, hd,
          ResourceData.setId_ident, ← h]
      | ok v =>
        simp [resourceAwsSecurityHubOrganizationConfigurationUpdate,
          resourceAwsSecurityHubOrganizationConfigurationRead, hs, hd,
          ResourceData.set_ident, ResourceData.setId_ident, ← h]

/-- State whose `rule_set_name` attribute still equals the identifier
assigned at creation. -/
def c5dStable : ResourceData :=
  { ident := "main", attrs := [("rule_set_name", .str "main")], changedKeys := [] }

/-- SES connection whose active rule set is the one named "main". -/
def c5connStable : SesConn :=
  { setActiveReceiptRuleSet := fun _ => none
    describeActiveReceiptRuleSet := .ok (some { name := some "main" }) }

/-- Security Hub connection on which both calls succeed. -/
def c5shConn : SecurityHubConn :=
  { updateOrganizationConfiguration := fun _ => none
    describeOrganizationConfiguration := .ok (some true) }

/-- State of the Security Hub scenario, created under account
c5meta.accountID. -/
def c5shd : ResourceData :=
  { ident := "123456789012", attrs := [("auto_enable", .boolean true)], changedKeys := [] }

/-- Witness for the amended C5 at concrete connections: with unchanged
identifier-deriving inputs both Updates keep the identifier. -/
theorem C5_identifier_stable_when_inputs_unchanged_witness :
    c5dStable.ident = c5dStable.getStr "rule_set_name" ∧
      ((resourceAwsSesActiveReceiptRuleSetUpdate c5connStable c5meta c5dStable).1.ident
          = c5dStable.ident ∨
        (resourceAwsSesActiveReceiptRuleSetUpdate c5connStable c5meta c5dStable).1.ident
          = "") ∧
      c5shd.ident = c5meta.accountID ∧
      (resourceAwsSecurityHubOrganizationConfigurationUpdate c5shConn c5meta c5shd).1.ident
        = c5shd.ident := by
  refine ⟨rfl, ?_, rfl, ?_⟩
  · exact C5_identifier_stable_when_inputs_unchanged.1 c5connStable c5meta c5dStable rfl
  · exact C5_identifier_stable_when_inputs_unchanged.2 c5shConn c5meta c5shd rfl

/-! Lemmas about attribute lookup after updates, and the fixed form of a
successful DAX parameter group read. -/

theorem lookupAttr_setAttr_same (l : List (String × AttrVal)) (k : String) (v : AttrVal) :
    lookupAttr (setAttr l k v) k = some v := by
  induction l with
  | nil => simp [setAttr, lookupAttr]
  | cons kv rest ih =>
    obtain ⟨k0, v0⟩ := kv
    by_cases h0 : (k0 == k) = true
    · simp [setAttr, h0, lookupAttr]
    · simp [setAttr, h0, lookupAttr, ih]

theorem lookupAttr_setAttr_ne (l : List (String × AttrVal)) (k k' : String) (v : AttrVal)
    (h : (k' == k) = false) :
    lookupAttr (setAttr l k' v) k = lookupAttr l k := by
  induction l with
  | nil => simp [setAttr, lookupAttr, h]
  | cons kv rest ih =>
    obtain ⟨k0, v0⟩ := kv
    by_cases h0 : (k0 == k') = true
    · have hk : k0 = k' := by simpa using h0
      subst hk
      simp [setAttr, lookupAttr, h, h0]
    · by_cases hk : (k0 == k) = true
      · simp [setAttr, lookupAttr, h0, hk]
      · simp [setAttr, lookupAttr, h0, hk, ih]

theorem setAttr_lookup_id (l : List (String × AttrVal)) (k : String) (v : AttrVal)
    (h : lookupAttr l k = some v) : setAttr l k v = l := by
  induction l with
  | nil => simp [lookupAttr] at h
  | cons kv rest ih =>
    obtain ⟨k0, v0⟩ := kv
    by_cases h0 : (k0 == k) = true
    · have hk : k0 = k := by simpa using h0
      subst hk
      simp [lookupAttr] at h
      simp [setAttr, h]
    · simp [lookupAttr, h0] at h
      simp [setAttr, h0, ih h]

theorem ResourceData.set_id (d : ResourceData) (k : String) (v : AttrVal)
    (h : lookupAttr d.attrs k = some v) : d.set k v = d := by
  show ({ d with attrs := setAttr d.attrs k v } : ResourceData) = d
  rw [setAttr_lookup_id d.attrs k v h]

theorem ResourceData.set_set_same (d : ResourceData) (k : String) (v : AttrVal) :
    (d.set k v).set k v = d.set k v :=
  ResourceData.set_id _ _ _ (lookupAttr_setAttr_same d.attrs k v)

theorem getStr_set_str (d : ResourceData) (k s : String) :
    (d.set k (.str s)).getStr k = s := by
  simp [ResourceData.getStr, ResourceData.set, lookupAttr_setAttr_same]

theorem getStr_set_ne (d : ResourceData) (k k' : String) (v : AttrVal)
    (h : (k' == k) = false) : (d.set k' v).getStr k = d.getStr k := by
  simp [ResourceData.getStr, ResourceData.set, lookupAttr_setAttr_ne _ k k' v h]

theorem getParams_set_params (d : ResourceData) (k : String)
    (ps : List (String × String)) : (d.set k (.params ps)).getParams k = ps := by
  simp [ResourceData.getParams, ResourceData.set, lookupAttr_setAttr_same]

/-- Shape of a successful DAX parameter group read: the name, normalized
description and flattened parameters are written over the input state and
no error is returned. -/
theorem daxRead_found (conn : DaxConn) (d : ResourceData) (pg : ParameterGroup)
    (gs : List ParameterGroup) (ps : List Parameter)
    (hg : conn.describeParameterGroups d.ident = .ok (pg :: gs))
    (hp : conn.describeParameters d.ident = .ok ps) :
    resourceAwsDaxParameterGroupRead conn d
      = (((d.set "name" (.str (pg.parameterGroupName.getD ""))).set "description"
          (.str ((if pg.description == some " " then some "" else pg.description).getD
            ""))).set "parameters" (.params (flattenParameterGroupParameters ps)),
        none) := by
  simp [resourceAwsDaxParameterGroupRead, hg, hp]

/-! Claim C4: DAX parameter group round-trip, the sentinel one-space
description excepted. -/

/-- C4: whatever the remote holds — which is exactly what Create/Update
wrote there, Create sending the configured name and description and Update
sending the expanded configured parameters — a successful Read writes back
verbatim: the name and the flattened parameters are reproduced exactly,
and the description is reproduced exactly unless the remote value is the
sentinel one-space string, which Read alone normalizes to the empty
string. -/
theorem C4_dax_roundtrip_sentinel_description (conn : DaxConn) (d : ResourceData)
    (n dsc : String) (gs : List ParameterGroup) (ps : List Parameter)
    (hg : conn.describeParameterGroups d.ident
      = .ok ({ parameterGroupName := some n, description := some dsc } :: gs))
    (hp : conn.describeParameters d.ident = .ok ps) :
    (resourceAwsDaxParameterGroupRead conn d).2 = none ∧
      (resourceAwsDaxParameterGroupRead conn d).1.ident = d.ident ∧
      (resourceAwsDaxParameterGroupRead conn d).1.getStr "name" = n ∧
      (resourceAwsDaxParameterGroupRead conn d).1.getStr "description"
        = (if dsc = " " then "" else dsc) ∧
      (resourceAwsDaxParameterGroupRead conn d).1.getParams "parameters"
        = flattenParameterGroupParameters ps := by
  rw [daxRead_found conn d _ gs ps hg hp]
  refine ⟨rfl, rfl, ?_, ?_, ?_⟩
  · rw [getStr_set_ne _ "name" "parameters" _ (by rfl),
      getStr_set_ne _ "name" "description" _ (by rfl), getStr_set_str]
    simp
  · rw [getStr_set_ne _ "description" "parameters" _ (by rfl), getStr_set_str]
    by_cases hd : dsc = " " <;> simp [hd]
  · rw [getParams_set_params]

/-- DAX connection holding a group whose description is the sentinel
one-space default and one parameter. -/
def c4conn : DaxConn :=
  { describeParameterGroups :=
      fun _ => .ok [{ parameterGroupName := some "pg1", description := some " " }]
    describeParameters :=
      fun _ => .ok [{ parameterName := some "query-ttl-millis"
                      parameterValue := some "100000" }]
    createParameterGroup := fun _ => none
    updateParameterGroup := fun _ => none
    deleteParameterGroup := fun _ => none }

/-- State of the C4 witness. -/
def c4d : ResourceData := { ident := "pg1", attrs := [], changedKeys := [] }

/-- Witness for C4 at a concrete remote: reading back yields the stored
name and parameters verbatim and the sentinel description as the empty
string. -/
theorem C4_dax_roundtrip_sentinel_description_witness :
    c4conn.describeParameterGroups c4d.ident
        = .ok [{ parameterGroupName := some "pg1", description := some " " }] ∧
      (resourceAwsDaxParameterGroupRead c4conn c4d).2 = none ∧
      (resourceAwsDaxParameterGroupRead c4conn c4d).1.getStr "name" = "pg1" ∧
      (resourceAwsDaxParameterGroupRead c4conn c4d).1.getStr "description" = "" ∧
      (resourceAwsDaxParameterGroupRead c4conn c4d).1.getParams "parameters"
        = [("query-ttl-millis", "100000")] := by
  have h := C4_dax_roundtrip_sentinel_description c4conn c4d "pg1" " " []
    [{ parameterName := some "query-ttl-millis", parameterValue := some "100000" }]
    rfl rfl
  exact ⟨rfl, h.1, h.2.2.1, by simpa using h.2.2.2.1, by simpa using h.2.2.2.2⟩

/-! Claim C7: Read is deterministic in the observed remote state, so an
immediate second Read reproduces the first's output. -/

/-- C7: for the Security Hub organization configuration and the DAX
parameter group, two Reads in succession against the same remote
observation produce identical output: the second Read, run on the first
Read's resulting state, returns exactly the first Read's result. -/
theorem C7_read_idempotent :
    (∀ (conn : SecurityHubConn) (d : ResourceData) (v : Option Bool),
      conn.describeOrganizationConfiguration = .ok v →
      resourceAwsSecurityHubOrganizationConfigurationRead conn
          (resourceAwsSecurityHubOrganizationConfigurationRead conn d).1
        = resourceAwsSecurityHubOrganizationConfigurationRead conn d) ∧
    (∀ (conn : DaxConn) (d : ResourceData) (pg : ParameterGroup)
        (gs : List ParameterGroup) (ps : List Parameter),
      conn.describeParameterGroups d.ident = .ok (pg :: gs) →
      conn.describeParameters d.ident = .ok ps →
      resourceAwsDaxParameterGroupRead conn (resourceAwsDaxParameterGroupRead conn d).1
        = resourceAwsDaxParameterGroupRead conn d) := by
  constructor
  · intro conn d v hd
    simp [resourceAwsSecurityHubOrganizationConfigurationRead, hd,
      ResourceData.set_set_same]
  · intro conn d pg gs ps hg hp
    have h1 := daxRead_found conn d pg gs ps hg hp
    rw [h1]
    have h2 := daxRead_found conn
      (((d.set "name" (.str (pg.parameterGroupName.getD ""))).set "description"
        (.str ((if pg.description == some " " then some "" else pg.description).getD
          ""))).set "parameters" (.params (flattenParameterGroupParameters ps)))
      pg gs ps hg hp
    rw [h2]
    have e1 : (((d.set "name" (.str (pg.parameterGroupName.getD ""))).set "description"
        (.str ((if pg.description == some " " then some "" else pg.description).getD
          ""))).set "parameters" (.params (flattenParameterGroupParameters ps))).set
          "name" (.str (pg.parameterGroupName.getD ""))
        = ((d.set "name" (.str (pg.parameterGroupName.getD ""))).set "description"
        (.str ((if pg.description == some " " then some "" else pg.description).getD
          ""))).set "parameters" (.params (flattenParameterGroupParameters ps)) := by
      apply ResourceData.set_id
      show lookupAttr (setAttr (setAttr (setAttr d.attrs "name" _) "description" _)
        "parameters" _) "name" = _
      rw [lookupAttr_setAttr_ne _ "name" "parameters" _ (by rfl),
        lookupAttr_setAttr_ne _ "name" "description" _ (by rfl),
        lookupAttr_setAttr_same]
    rw [e1]
    have e2 : (((d.set "name" (.str (pg.parameterGroupName.getD ""))).set "description"
        (.str ((if pg.description == some " " then some "" else pg.description).getD
          ""))).set "parameters" (.params (flattenParameterGroupParameters ps))).set
          "description" (.str ((if pg.description == some " " then some ""
            else pg.description).getD ""))
        = ((d.set "name" (.str (pg.parameterGroupName.getD ""))).set "description"
        (.str ((if pg.description == some " " then some "" else pg.description).getD
          ""))).set "parameters" (.params (flattenParameterGroupParameters ps)) := by
      apply ResourceData.set_id
      show lookupAttr (setAttr (setAttr (setAttr d.attrs "name" _) "description" _)
        "parameters" _) "description" = _
      rw [lookupAttr_setAttr_ne _ "description" "parameters" _ (by rfl),
        lookupAttr_setAttr_same]
    rw [e2]
    have e3 : (((d.set "name" (.str (pg.parameterGroupName.getD ""))).set "description"
        (.str ((if pg.description == some " " then some "" else pg.description).getD
          ""))).set "parameters" (.params (flattenParameterGroupParameters ps))).set
          "parameters" (.params (flattenParameterGroupParameters ps))
        = ((d.set "name" (.str (pg.parameterGroupName.getD ""))).set "description"
        (.str ((if pg.description == some " " then some "" else pg.description).getD
          ""))).set "parameters" (.params (flattenParameterGroupParameters ps)) :=
      ResourceData.set_set_same _ _ _
    rw [e3]

/-- Security Hub connection of the C7 witness. -/
def c7shConn : SecurityHubConn :=
  { updateOrganizationConfiguration := fun _ => none
    describeOrganizationConfiguration := .ok (some true) }

/-- DAX connection of the C7 witness. -/
def c7daxConn : DaxConn :=
  { describeParameterGroups :=
      fun _ => .ok [{ parameterGroupName := some "pg7", description := some "d" }]
    describeParameters :=
      fun _ => .ok [{ parameterName := some "p", parameterValue := some "1" }]
    createParameterGroup := fun _ => none
    updateParameterGroup := fun _ => none
    deleteParameterGroup := fun _ => none }

/-- State of the C7 witness. -/
def c7d : ResourceData := { ident := "pg7", attrs := [], changedKeys := [] }

/-- Witness for C7 at concrete connections: both second Reads reproduce
the first Read's result exactly. -/
theorem C7_read_idempotent_witness :
    c7shConn.describeOrganizationConfiguration = .ok (some true) ∧
      resourceAwsSecurityHubOrganizationConfigurationRead c7shConn
          (resourceAwsSecurityHubOrganizationConfigurationRead c7shConn c7d).1
        = resourceAwsSecurityHubOrganizationConfigurationRead c7shConn c7d ∧
      resourceAwsDaxParameterGroupRead c7daxConn
          (resourceAwsDaxParameterGroupRead c7daxConn c7d).1
        = resourceAwsDaxParameterGroupRead c7daxConn c7d := by
  refine ⟨rfl, ?_, ?_⟩
  · exact C7_read_idempotent.1 c7shConn c7d (some true) rfl
  · exact C7_read_idempotent.2 c7daxConn c7d
      { parameterGroupName := some "pg7", description := some "d" } []
      [{ parameterName := some "p", parameterValue := some "1" }] rfl rfl

/-! Claim C6: bounded retry of transient propagation errors for the
Service Catalog constraint. The Create closure retries both the
invalid-parameters "profile does not exist" and the resource-not-found
classes; the Update closure retries only the former, so a
resource-not-found during Update aborts immediately. -/

/-- Exhaustion lemma: when every attempt within the window fails with a
retryable error, the bounded retry loop times out. -/
theorem retryGo_timedOut {α : Type} (call : Nat → Except AwsErr α)
    (retryable : AwsErr → Bool) :
    ∀ (fuel i : Nat),
      (∀ j, j < fuel → ∃ e, call (i + j) = .error e ∧ retryable e = true) →
      retryGo call retryable fuel i = .timedOut := by
  intro fuel
  induction fuel with
  | zero => intro i _; rfl
  | succ k ih =>
    intro i h
    obtain ⟨e, he, hr⟩ := h 0 (by omega)
    rw [Nat.add_zero] at he
    have hrec := ih (i + 1) (fun j hj => by
      obtain ⟨e', he', hr'⟩ := h (j + 1) (by omega)
      refine ⟨e', ?_, hr'⟩
      have hx : i + 1 + j = i + (j + 1) := by omega
      rw [hx]
      exact he')
    simp [retryGo, he, hr, hrec]

/-- Resource-not-found error observed by the C6 scenario. -/
def c6rnf : AwsErr := ⟨"ResourceNotFoundException", "Portfolio not found"⟩

/-- Constraint detail returned by the C6 connection. -/
def c6detail : ConstraintDetail :=
  { constraintId := some "cons-1", description := some "", owner := some ""
    portfolioId := some "port-1", productId := some "prod-1", ctype := some "LAUNCH" }

/-- Service Catalog connection whose update fails with resource-not-found
on the first attempt only and succeeds from the second attempt on. -/
def c6conn : SCConn :=
  { createConstraint := fun _ _ => .ok { constraintDetail := some c6detail }
    updateConstraint := fun i _ => if i = 0 then .error c6rnf else .ok ()
    deleteConstraint := fun _ => none
    waitConstraintReady := fun _ _ =>
      .ok { constraintDetail := some c6detail, constraintParameters := some "\x7b\x7d"
            status := some "AVAILABLE" }
    waitConstraintDeleted := fun _ _ => none }

/-- State of the C6 scenarios. -/
def c6d : ResourceData := { ident := "cons-1", attrs := [], changedKeys := [] }

/-- Counterexample to C6 as stated: on Update a resource-not-found
response is not retried — with a five-attempt window and a remote that
would succeed from the second attempt on, Update aborts immediately with
the first attempt's resource-not-found error. -/
theorem C6_counterexample_update_not_found_not_retried :
    resourceAwsServiceCatalogConstraintUpdate c6conn 5 c6d
        = (c6d, some (.wrapped "error updating Service Catalog Constraint" c6rnf)) ∧
      c6conn.updateConstraint 1 (scUpdateInput c6d) = .ok () ∧
      ErrCodeEquals (some c6rnf) ErrCodeResourceNotFoundException = true :=
  ⟨rfl, rfl, rfl⟩

/-- C6 (amended): Create retries both transient propagation classes —
invalid-parameters with a "profile does not exist" message and
resource-not-found — for the bounded window, making one additional
immediate attempt whose outcome is final once the window times out, and
any other error aborts Create immediately and is propagated; Update
retries only the invalid-parameters "profile does not exist" class the
same way, and any other error — the resource-not-found class included —
aborts Update immediately and is propagated. -/
theorem C6_create_retries_both_update_retries_profile_only :
    (∀ (conn : SCConn) (window : Nat) (input : CreateConstraintInput),
      (∀ i, i < window → ∃ e, conn.createConstraint i input = .error e ∧
        scConstraintCreateRetryable e = true) →
      scConstraintCreateAttempts conn window input = conn.createConstraint window input) ∧
    (∀ (conn : SCConn) (window : Nat) (token : String) (d : ResourceData) (e : AwsErr),
      conn.createConstraint 0 (scCreateInput token d) = .error e →
      scConstraintCreateRetryable e = false → 1 ≤ window →
      resourceAwsServiceCatalogConstraintCreate conn window token d
        = (d, some (.wrapped "error creating Service Catalog Constraint" e))) ∧
    (∀ (conn : SCConn) (window : Nat) (input : UpdateConstraintInput),
      (∀ i, i < window → ∃ e, conn.updateConstraint i input = .error e ∧
        scConstraintUpdateRetryable e = true) →
      scConstraintUpdateAttempts conn window input = conn.updateConstraint window input) ∧
    (∀ (conn : SCConn) (window : Nat) (d : ResourceData) (e : AwsErr),
      conn.updateConstraint 0 (scUpdateInput d) = .error e →
      scConstraintUpdateRetryable e = false → 1 ≤ window →
      resourceAwsServiceCatalogConstraintUpdate conn window d
        = (d, some (.wrapped "error updating Service Catalog Constraint" e))) ∧
    (∀ m, scConstraintCreateRetryable ⟨ErrCodeResourceNotFoundException, m⟩ = true) ∧
    (∀ s, strContains s "profile does not exist" = true →
      scConstraintCreateRetryable ⟨ErrCodeInvalidParametersException, s⟩ = true ∧
        scConstraintUpdateRetryable ⟨ErrCodeInvalidParametersException, s⟩ = true) ∧
    (∀ m, scConstraintUpdateRetryable ⟨ErrCodeResourceNotFoundException, m⟩ = false) := by
  refine ⟨?_, ?_, ?_, ?_, ?_, ?_, ?_⟩
  · intro conn window input h
    unfold scConstraintCreateAttempts Retry
    rw [retryGo_timedOut _ _ window 0 (by simpa using h)]
  · intro conn window token d e h0 hr hw
    obtain ⟨k, rfl⟩ : ∃ k, window = k + 1 := ⟨window - 1, by omega⟩
    simp [resourceAwsServiceCatalogConstraintCreate, scConstraintCreateAttempts,
      Retry, retryGo, h0, hr]
  · intro conn window input h
    unfold scConstraintUpdateAttempts Retry
    rw [retryGo_timedOut _ _ window 0 (by simpa using h)]
  · intro conn window d e h0 hr hw
    obtain ⟨k, rfl⟩ : ∃ k, window = k + 1 := ⟨window - 1, by omega⟩
    simp [resourceAwsServiceCatalogConstraintUpdate, scConstraintUpdateAttempts,
      Retry, retryGo, h0, hr]
  · intro m
    simp [scConstraintCreateRetryable, ErrMessageContains, ErrCodeEquals,
      ErrCodeResourceNotFoundException, ErrCodeInvalidParametersException]
  · intro s hs
    constructor <;>
      simp [scConstraintCreateRetryable, scConstraintUpdateRetryable,
        ErrMessageContains, ErrCodeEquals, ErrCodeResourceNotFoundException,
        ErrCodeInvalidParametersException, hs]
  · intro m
    simp [scConstraintUpdateRetryable, ErrMessageContains,
      ErrCodeResourceNotFoundException, ErrCodeInvalidParametersException]

/-- Service Catalog connection whose create fails retryably on the first
two attempts and succeeds from the third on. -/
def c6wConnCreate : SCConn :=
  { createConstraint := fun i _ =>
      if i < 2 then .error ⟨ErrCodeResourceNotFoundException, ""⟩
      else .ok { constraintDetail := some c6detail }
    updateConstraint := fun i _ =>
      if i < 2 then .error ⟨ErrCodeInvalidParametersException, "profile does not exist"⟩
      else .ok ()
    deleteConstraint := fun _ => none
    waitConstraintReady := fun _ _ => .error .notFound
    waitConstraintDeleted := fun _ _ => none }

/-- Service Catalog connection failing non-retryably on every attempt. -/
def c6wConnDenied : SCConn :=
  { createConstraint := fun _ _ => .error ⟨"AccessDeniedException", "no"⟩
    updateConstraint := fun _ _ => .error ⟨"AccessDeniedException", "no"⟩
    deleteConstraint := fun _ => none
    waitConstraintReady := fun _ _ => .error .notFound
    waitConstraintDeleted := fun _ _ => none }

/-- Witness for the amended C6 at concrete connections: retryable failures
within a two-attempt window end with the third, immediate attempt's
success for both Create and Update; a non-retryable error aborts both
immediately; the classification facts hold at concrete errors. -/
theorem C6_create_retries_both_update_retries_profile_only_witness :
    scConstraintCreateAttempts c6wConnCreate 2 (scCreateInput "tok" c6d)
        = c6wConnCreate.createConstraint 2 (scCreateInput "tok" c6d) ∧
      scConstraintUpdateAttempts c6wConnCreate 2 (scUpdateInput c6d)
        = c6wConnCreate.updateConstraint 2 (scUpdateInput c6d) ∧
      resourceAwsServiceCatalogConstraintCreate c6wConnDenied 5 "tok" c6d
        = (c6d, some (.wrapped "error creating Service Catalog Constraint"
            ⟨"AccessDeniedException", "no"⟩)) ∧
      resourceAwsServiceCatalogConstraintUpdate c6conn 5 c6d
        = (c6d, some (.wrapped "error updating Service Catalog Constraint" c6rnf)) ∧
      scConstraintCreateRetryable ⟨ErrCodeResourceNotFoundException, "x"⟩ = true ∧
      scConstraintUpdateRetryable ⟨ErrCodeResourceNotFoundException, "x"⟩ = false := by
  refine ⟨?_, ?_, ?_, ?_, ?_, ?_⟩
  · exact C6_create_retries_both_update_retries_profile_only.1 c6wConnCreate 2
      (scCreateInput "tok" c6d)
      (fun i hi => ⟨⟨ErrCodeResourceNotFoundException, ""⟩,
        by simp [c6wConnCreate, hi], by decide⟩)
  · exact C6_create_retries_both_update_retries_profile_only.2.2.1 c6wConnCreate 2
      (scUpdateInput c6d)
      (fun i hi => ⟨⟨ErrCodeInvalidParametersException, "profile does not exist"⟩,
        by simp [c6wConnCreate, hi], by decide⟩)
  · exact C6_create_retries_both_update_retries_profile_only.2.1 c6wConnDenied 5
      "tok" c6d ⟨"AccessDeniedException", "no"⟩ rfl (by decide) (by omega)
  · exact C6_create_retries_both_update_retries_profile_only.2.2.2.1 c6conn 5 c6d
      c6rnf rfl (by decide) (by omega)
  · exact C6_create_retries_both_update_retries_profile_only.2.2.2.2.1 "x"
  · exact C6_create_retries_both_update_retries_profile_only.2.2.2.2.2.2 "x"

end TfAws
